import Mathlib

/-!
Verification of the repository's two HTTP services:
the reflector server (submissions/LoadBalanceRR/stub/reflect.py) and the
Flask Hello World service (submissions/example-team/main.py).
The handlers, dispatch, CLI parsing and environment lookup are embedded
shallowly; theorems below settle the specification's claims about them.
-/

/-- An HTTP request method: the four named in the reflector plus any other. -/
inductive Method where
  | GET
  | POST
  | PUT
  | DELETE
  | other (name : String)
deriving DecidableEq, Repr, BEq

/-- An inbound HTTP request: method, target path, header list, raw body bytes. -/
structure Request where
  method : Method
  path : String
  headers : List (String × String)
  body : List Nat
deriving DecidableEq, Repr

/-- An HTTP response as produced by the handler code: status code, the headers
the handler emits, and the body it writes. -/
structure Response where
  status : Nat
  headers : List (String × String)
  body : String
deriving DecidableEq, Repr

/-- Connection state visible to a handler: the request body bytes not yet
consumed from the socket. -/
structure Conn where
  unread : List Nat
deriving DecidableEq, Repr

/-- Embedding of RequestHandler.do_GET: reads self.path into request_path,
sends status 200, sends header Set-Cookie: foo=bar, ends headers, writes no
body and reads nothing from the connection. -/
def do_GET (req : Request) (conn : Conn) : Response × Conn :=
  let _request_path := req.path
  (⟨200, [("Set-Cookie", "foo=bar")], ""⟩, conn)

/-- Embedding of RequestHandler.do_POST: reads self.path into request_path,
sends status 200, ends headers, writes no body and reads nothing from the
connection. -/
def do_POST (req : Request) (conn : Conn) : Response × Conn :=
  let _request_path := req.path
  (⟨200, [], ""⟩, conn)

/-- Embedding of the class-level alias do_PUT = do_POST. -/
def do_PUT : Request → Conn → Response × Conn := do_POST

/-- Embedding of the class-level alias do_DELETE = do_GET. -/
def do_DELETE : Request → Conn → Response × Conn := do_GET

/-- The method-name lookup the HTTP server performs on RequestHandler: the
class defines do_GET, do_POST, do_PUT and do_DELETE and no other handler. -/
def dispatch : Method → Option (Request → Conn → Response × Conn)
  | .GET => some do_GET
  | .POST => some do_POST
  | .PUT => some do_PUT
  | .DELETE => some do_DELETE
  | .other _ => none

/-- Modelled from the spec: the underlying http.server library (not part of
this repository's sources) answers a request whose method has no registered
handler with its default response, status 501. -/
def defaultUnsupported : Response := ⟨501, [], ""⟩

/-- One request/response exchange of the reflector: dispatch on the method,
run the registered handler, otherwise fall back to the server default. -/
def serve (req : Request) (conn : Conn) : Response × Conn :=
  match dispatch req.method with
  | some h => h req conn
  | none => (defaultUnsupported, conn)

/-- Accumulate decimal digits into a number, failing on a non-digit. -/
def digitsToNat? : List Char → Nat → Option Nat
  | [], acc => some acc
  | c :: cs, acc =>
    if c.isDigit then digitsToNat? cs (acc * 10 + (c.toNat - 48)) else none

/-- Embedding of the int conversion argparse applies to the flag's value:
an optional leading minus sign followed by at least one decimal digit. -/
def pyInt? (s : String) : Option Int :=
  match s.data with
  | [] => none
  | '-' :: rest =>
    if rest = [] then none else (digitsToNat? rest 0).map (fun n => -(n : Int))
  | ds => (digitsToNat? ds 0).map (fun n => (n : Int))

/-- Embedding of the argparse loop for reflect.py's CLI: a scan over argv
recognising -p VALUE, --port VALUE, --port=VALUE and -pVALUE, carrying the
current port value (initially the default) and failing on anything else. -/
def parsePortArgs : List String → Int → Option Int
  | [], port => some port
  | a :: rest, _port =>
    if a = "-p" ∨ a = "--port" then
      match rest with
      | [] => none
      | v :: rest2 =>
        match pyInt? v with
        | some n => parsePortArgs rest2 n
        | none => none
    else if a.startsWith "--port=" then
      match pyInt? (a.drop 7) with
      | some n => parsePortArgs rest n
      | none => none
    else if a.startsWith "-p" then
      match pyInt? (a.drop 2) with
      | some n => parsePortArgs rest n
      | none => none
    else none

/-- Embedding of reflect.py's argument parsing: one optional -p or --port
flag with default 8080. -/
def parseArgs (argv : List String) : Option Int :=
  parsePortArgs argv 8080

/-- Embedding of the bind address built in main: HTTPServer(('0.0.0.0', port), ...). -/
def serverAddress (port : Int) : String × Int := ("0.0.0.0", port)

/-- A Python value as it reaches app.run's port parameter in main.py: either
the string taken from the environment or the integer default. -/
inductive PyVal where
  | str (s : String)
  | int (n : Int)
deriving DecidableEq, Repr

/-- Embedding of os.environ.get("PORT", 5000) in main.py. -/
def portFromEnv (env : String → Option String) : PyVal :=
  match env "PORT" with
  | some v => PyVal.str v
  | none => PyVal.int 5000

/-- A JSON value, enough for the Hello World payload. -/
inductive Json where
  | str (s : String)
  | obj (fields : List (String × Json))
deriving Repr

/-- Embedding of get_tasks in main.py: jsonify a one-field object, which
Flask returns with status 200. -/
def get_tasks : Unit → Nat × Json :=
  fun _ => (200, Json.obj [("message", Json.str "Hello World")])

/-- A registered Flask route: path, allowed methods, handler. -/
structure FlaskRoute where
  path : String
  methods : List Method
  handler : Unit → Nat × Json

/-- The routes main.py registers on the Flask app: exactly one, GET on "/". -/
def appRoutes : List FlaskRoute :=
  [⟨"/", [Method.GET], get_tasks⟩]

/-- Route lookup over the registered routes of main.py. -/
def findRoute (m : Method) (p : String) : Option (Unit → Nat × Json) :=
  (appRoutes.find?
      (fun (r : FlaskRoute) => decide (r.path = p) && r.methods.any (fun m2 => decide (m2 = m)))).map
    (fun r => r.handler)

/-- C1: every GET request and every DELETE request, to any path, receives a
response with status 200, the header Set-Cookie: foo=bar, and an empty body. -/
theorem get_delete_cookie_response (req : Request) (conn : Conn)
    (h : req.method = Method.GET ∨ req.method = Method.DELETE) :
    (serve req conn).1.status = 200 ∧
    ("Set-Cookie", "foo=bar") ∈ (serve req conn).1.headers ∧
    (serve req conn).1.body = "" := by
  rcases h with h | h <;> simp [serve, dispatch, h, do_GET, do_DELETE]

/-- Witness for C1 at GET /anything. -/
theorem get_delete_cookie_response_witness :
    (serve ⟨Method.GET, "/anything", [], []⟩ ⟨[]⟩).1.status = 200 ∧
    ("Set-Cookie", "foo=bar") ∈ (serve ⟨Method.GET, "/anything", [], []⟩ ⟨[]⟩).1.headers ∧
    (serve ⟨Method.GET, "/anything", [], []⟩ ⟨[]⟩).1.body = "" :=
  get_delete_cookie_response ⟨Method.GET, "/anything", [], []⟩ ⟨[]⟩ (Or.inl rfl)

/-- C2: every POST request and every PUT request, to any path and with any
body, receives a response with status 200, no Set-Cookie header, and an
empty body. -/
theorem post_put_plain_response (req : Request) (conn : Conn)
    (h : req.method = Method.POST ∨ req.method = Method.PUT) :
    (serve req conn).1.status = 200 ∧
    (∀ hd ∈ (serve req conn).1.headers, hd.1 ≠ "Set-Cookie") ∧
    (serve req conn).1.body = "" := by
  rcases h with h | h <;> simp [serve, dispatch, h, do_POST, do_PUT]

/-- Witness for C2 at POST /submit with body a=1&b=2. -/
theorem post_put_plain_response_witness :
    (serve ⟨Method.POST, "/submit", [], [97, 61, 49, 38, 98, 61, 50]⟩ ⟨[]⟩).1.status = 200 ∧
    (∀ hd ∈ (serve ⟨Method.POST, "/submit", [], [97, 61, 49, 38, 98, 61, 50]⟩ ⟨[]⟩).1.headers,
      hd.1 ≠ "Set-Cookie") ∧
    (serve ⟨Method.POST, "/submit", [], [97, 61, 49, 38, 98, 61, 50]⟩ ⟨[]⟩).1.body = "" :=
  post_put_plain_response ⟨Method.POST, "/submit", [], [97, 61, 49, 38, 98, 61, 50]⟩ ⟨[]⟩
    (Or.inl rfl)

/-- C3: noninterference over two runs: two requests with the same method
among GET, POST, PUT, DELETE, whatever their paths, headers, bodies and
connection states, receive identical responses, and the body is empty. -/
theorem method_noninterference (r1 r2 : Request) (c1 c2 : Conn)
    (hm : r1.method = r2.method)
    (h4 : r1.method = Method.GET ∨ r1.method = Method.POST ∨
          r1.method = Method.PUT ∨ r1.method = Method.DELETE) :
    (serve r1 c1).1 = (serve r2 c2).1 ∧ (serve r1 c1).1.body = "" := by
  have h2 := hm ▸ h4
  rcases h4 with h | h | h | h <;> rcases h2 with h2 | h2 | h2 | h2 <;>
    simp_all [serve, dispatch, do_GET, do_POST, do_PUT, do_DELETE]

/-- Witness for C3: two GET requests differing in path, headers, body and
connection state receive the same response, with empty body. -/
theorem method_noninterference_witness :
    (serve ⟨Method.GET, "/a", [("X", "1")], [1]⟩ ⟨[1]⟩).1 =
      (serve ⟨Method.GET, "/b", [], [2, 3]⟩ ⟨[]⟩).1 ∧
    (serve ⟨Method.GET, "/a", [("X", "1")], [1]⟩ ⟨[1]⟩).1.body = "" :=
  method_noninterference ⟨Method.GET, "/a", [("X", "1")], [1]⟩ ⟨Method.GET, "/b", [], [2, 3]⟩
    ⟨[1]⟩ ⟨[]⟩ rfl (Or.inl rfl)

/-- C4: the handler bound to PUT is the very function bound to POST, and the
handler bound to DELETE is the very function bound to GET; hence a PUT
request gets exactly the response of the POST request with the same target,
and a DELETE request exactly that of the GET request. -/
theorem put_post_delete_get_aliases :
    do_PUT = do_POST ∧ do_DELETE = do_GET ∧
    (∀ p hs b conn, serve ⟨Method.PUT, p, hs, b⟩ conn = serve ⟨Method.POST, p, hs, b⟩ conn) ∧
    (∀ p hs b conn, serve ⟨Method.DELETE, p, hs, b⟩ conn = serve ⟨Method.GET, p, hs, b⟩ conn) :=
  ⟨rfl, rfl, fun _ _ _ _ => rfl, fun _ _ _ _ => rfl⟩

/-- C5: POST and PUT responses carry no handler-emitted header at all, while
GET and DELETE responses carry exactly the single header Set-Cookie: foo=bar. -/
theorem header_sets_by_method (req : Request) (conn : Conn) :
    ((req.method = Method.POST ∨ req.method = Method.PUT) →
      (serve req conn).1.headers = []) ∧
    ((req.method = Method.GET ∨ req.method = Method.DELETE) →
      (serve req conn).1.headers = [("Set-Cookie", "foo=bar")]) := by
  constructor
  · rintro (h | h) <;> simp [serve, dispatch, h, do_POST, do_PUT]
  · rintro (h | h) <;> simp [serve, dispatch, h, do_GET, do_DELETE]

/-- Witness for C5 at a POST request and a GET request. -/
theorem header_sets_by_method_witness :
    (serve ⟨Method.POST, "/a", [], []⟩ ⟨[]⟩).1.headers = [] ∧
    (serve ⟨Method.GET, "/a", [], []⟩ ⟨[]⟩).1.headers = [("Set-Cookie", "foo=bar")] :=
  ⟨(header_sets_by_method ⟨Method.POST, "/a", [], []⟩ ⟨[]⟩).1 (Or.inl rfl),
   (header_sets_by_method ⟨Method.GET, "/a", [], []⟩ ⟨[]⟩).2 (Or.inl rfl)⟩

/-- C6: a request whose method is none of GET, POST, PUT, DELETE has no
handler registered on RequestHandler, and the exchange yields the underlying
server's default response of status 501, not one built by the handlers. -/
theorem unregistered_method_default (req : Request) (conn : Conn) (s : String)
    (h : req.method = Method.other s) :
    dispatch req.method = none ∧
    serve req conn = (defaultUnsupported, conn) ∧
    defaultUnsupported.status = 501 := by
  simp [serve, dispatch, h, defaultUnsupported]

/-- Witness for C6 at method PATCH. -/
theorem unregistered_method_default_witness :
    dispatch (Method.other "PATCH") = none ∧
    serve ⟨Method.other "PATCH", "/x", [], []⟩ ⟨[]⟩ =
      (defaultUnsupported, ⟨[]⟩) ∧
    defaultUnsupported.status = 501 :=
  unregistered_method_default ⟨Method.other "PATCH", "/x", [], []⟩ ⟨[]⟩ "PATCH" rfl

/-- C7: handling a POST or PUT request leaves the connection state, hence the
unconsumed request body bytes, untouched, and the response does not depend on
the request body or headers. -/
theorem post_put_body_untouched (req : Request) (conn : Conn)
    (h : req.method = Method.POST ∨ req.method = Method.PUT) :
    (serve req conn).2 = conn ∧
    (∀ b hs, (serve ⟨req.method, req.path, hs, b⟩ conn).1 = (serve req conn).1) := by
  rcases h with h | h <;>
    (constructor
     · simp [serve, dispatch, h, do_POST, do_PUT]
     · intro b hs; simp [serve, dispatch, h, do_POST, do_PUT])

/-- Witness for C7: a POST request with body bytes pending on the connection
leaves them pending, and swapping the body does not change the response. -/
theorem post_put_body_untouched_witness :
    (serve ⟨Method.POST, "/s", [], [1, 2]⟩ ⟨[1, 2]⟩).2 = ⟨[1, 2]⟩ ∧
    (serve ⟨Method.POST, "/s", [], [9]⟩ ⟨[1, 2]⟩).1 =
      (serve ⟨Method.POST, "/s", [], [1, 2]⟩ ⟨[1, 2]⟩).1 :=
  ⟨(post_put_body_untouched ⟨Method.POST, "/s", [], [1, 2]⟩ ⟨[1, 2]⟩ (Or.inl rfl)).1,
   (post_put_body_untouched ⟨Method.POST, "/s", [], [1, 2]⟩ ⟨[1, 2]⟩ (Or.inl rfl)).2 [9] []⟩

/-- C8: the reflector CLI defaults the port to 8080 when no flag is given,
the -p and --port flags select the given integer port, and the server is
bound to 0.0.0.0 on exactly the selected port. -/
theorem cli_port_spec :
    parseArgs [] = some 8080 ∧
    (∀ s n, pyInt? s = some n →
      parseArgs ["-p", s] = some n ∧ parseArgs ["--port", s] = some n) ∧
    (∀ p, serverAddress p = ("0.0.0.0", p)) := by
  refine ⟨rfl, ?_, fun p => rfl⟩
  intro s n h
  constructor <;> simp [parseArgs, parsePortArgs, h]

/-- Witness for C8 at the spec's scenario of port 9000. -/
theorem cli_port_spec_witness :
    parseArgs ["--port", "9000"] = some 9000 ∧ parseArgs [] = some 8080 :=
  ⟨(cli_port_spec.2.1 "9000" 9000 (by decide)).2, cli_port_spec.1⟩

/-- C9: the Hello World service's port argument is the value of the
environment variable PORT when it is set, and the integer 5000 otherwise. -/
theorem hello_port_from_env (env : String → Option String) :
    (∀ v, env "PORT" = some v → portFromEnv env = PyVal.str v) ∧
    (env "PORT" = none → portFromEnv env = PyVal.int 5000) := by
  constructor
  · intro v h; simp [portFromEnv, h]
  · intro h; simp [portFromEnv, h]

/-- Witness for C9 on an empty environment and one where PORT is 7000. -/
theorem hello_port_from_env_witness :
    portFromEnv (fun _ => none) = PyVal.int 5000 ∧
    portFromEnv (fun _ => some "7000") = PyVal.str "7000" :=
  ⟨(hello_port_from_env (fun _ => none)).2 rfl,
   (hello_port_from_env (fun _ => some "7000")).1 "7000" rfl⟩

/-- C10: the Hello World app registers exactly one route, GET on the root
path, whose handler returns status 200 with the JSON object having the
single field message set to the string Hello World; every other method or
path has no handler. -/
theorem hello_world_routes :
    findRoute Method.GET "/" = some get_tasks ∧
    get_tasks () = (200, Json.obj [("message", Json.str "Hello World")]) ∧
    (∀ m p, m ≠ Method.GET ∨ p ≠ "/" → findRoute m p = none) := by
  refine ⟨rfl, rfl, ?_⟩
  intro m p h
  by_cases hp : p = "/"
  · subst hp
    rcases h with h | h
    · cases m with
      | GET => exact absurd rfl h
      | POST => rfl
      | PUT => rfl
      | DELETE => rfl
      | other s => rfl
    · exact absurd rfl h
  · have hp2 : ¬("/" = p) := fun e => hp e.symm
    simp [findRoute, appRoutes, List.find?, hp2]

/-- Witness for C10: POST on the root path and GET on another path have no
handler. -/
theorem hello_world_routes_witness :
    findRoute Method.POST "/" = none ∧ findRoute Method.GET "/tasks" = none :=
  ⟨hello_world_routes.2.2 Method.POST "/" (Or.inl (by simp)),
   hello_world_routes.2.2 Method.GET "/tasks" (Or.inr (by simp))⟩
